import Mathlib

set_option maxHeartbeats 1000000

namespace UpdateArticles

/-- An RSS feed entry as exposed by feedparser to update_articles.py: each of
the four fields read by the script may be absent. -/
structure Entry where
  title : Option String
  link : Option String
  description : Option String
  published : Option String
deriving DecidableEq

/-- A parsed feed: its list of entries. -/
structure Feed where
  entries : List Entry
deriving DecidableEq

/-- The dictionary returned by fetch_latest_entry. -/
structure ArticleData where
  title : String
  link : String
  description : String
  published : String
deriving DecidableEq

/-- Models Python html.unescape restricted to the five predefined XML
character references, processed left to right in one pass as the library
does; text without character references is returned unchanged, which is all
this development relies on. -/
def unescapeChars : List Char → List Char
  | [] => []
  | '&' :: 'a' :: 'm' :: 'p' :: ';' :: rest => '&' :: unescapeChars rest
  | '&' :: 'l' :: 't' :: ';' :: rest => '<' :: unescapeChars rest
  | '&' :: 'g' :: 't' :: ';' :: rest => '>' :: unescapeChars rest
  | '&' :: 'q' :: 'u' :: 'o' :: 't' :: ';' :: rest => '"' :: unescapeChars rest
  | '&' :: '#' :: '3' :: '9' :: ';' :: rest => Char.ofNat 39 :: unescapeChars rest
  | c :: rest => c :: unescapeChars rest

def htmlUnescape (s : String) : String := String.mk (unescapeChars s.data)

/-- The RSS feed URL constant of update_articles.py. -/
def FEED_URL : String := "https://www.geopoliticalmonitor.com/feed/"

/-- NEWS_DIR constant. -/
def NEWS_DIR : String := "news"

/-- INDEX_FILE constant. -/
def INDEX_FILE : String := "index.html"

/-- fetch_latest_entry, with the parsed feed and the current UTC timestamp
string (datetime.datetime.utcnow().isoformat()) passed as parameters in
place of the network call and the clock. -/
def fetch_latest_entry (feed : Feed) (now : String) : Option ArticleData :=
  match feed.entries with
  | [] => none
  | entry :: _ =>
    some { title := htmlUnescape (entry.title.getD ("Article sans titre")),
           link := entry.link.getD (""),
           description := htmlUnescape (entry.description.getD ("")),
           published := entry.published.getD now }

/-- The literal template text of generate_article_html before the first
interpolation. -/
def tpl1 : String := "\n<!DOCTYPE html>\n<html lang=\"fr\">\n<head>\n  <meta charset=\"UTF-8\">\n  <meta name=\"viewport\" content=\"width=device-width, initial-scale=1.0\">\n  <title>"

/-- Template text between the title interpolations. -/
def tpl2 : String := "</title>\n  <link rel=\"stylesheet\" href=\"../styles.css\">\n</head>\n<body>\n  <header>\n    <h1>"

/-- Template text between the second title and the published field. -/
def tpl3 : String := "</h1>\n    <nav>\n      <a href=\"../index.html\">Accueil</a>\n    </nav>\n  </header>\n  <main class=\"article\">\n    <p><em>Publié le "

/-- Template text between the published field and the description. -/
def tpl4 : String := "</em></p>\n    <p>"

/-- Template text between the description and the link. -/
def tpl5 : String := "</p>\n    <p>Lire l\x27article complet : <a href=\""

/-- Template text after the link interpolation. -/
def tpl6 : String := "\">source</a></p>\n  </main>\n  <footer>\n    <p>Ce contenu provient d\x27un flux RSS externe. Pour plus d\x27articles, consultez la section actualités du site.</p>\n  </footer>\n</body>\n</html>\n"

/-- The f-string content built by generate_article_html. -/
def articleContent (a : ArticleData) : String :=
  tpl1 ++ a.title ++ tpl2 ++ a.title ++ tpl3 ++ a.published ++ tpl4 ++
    a.description ++ tpl5 ++ a.link ++ tpl6

/-- A flat model of the file system: the directories that exist and a map
from path to file content, newest binding first (writing shadows older
bindings, modelling overwrite). -/
structure FS where
  dirs : List String
  files : List (String × String)
deriving DecidableEq

def FS.read (fs : FS) (p : String) : Option String :=
  (fs.files.find? (fun e => e.1 == p)).map (fun e => e.2)

def FS.write (fs : FS) (p c : String) : FS :=
  { fs with files := (p, c) :: fs.files }

/-- os.path.exists on the modelled file system (for the paths the script
tests, which are files). -/
def FS.pathExists (fs : FS) (p : String) : Bool := (fs.read p).isSome

/-- Splitting a character list at separator characters, keeping empty
parts, accumulator style. -/
def splitCharAux (sep : Char → Bool) (acc : List Char) : List Char → List (List Char)
  | [] => [acc.reverse]
  | c :: rest =>
      if sep c then acc.reverse :: splitCharAux sep [] rest
      else splitCharAux sep (c :: acc) rest

/-- String.intercalate, restated by structural recursion so that it
evaluates by rfl. -/
def intercalateStr (sep : String) : List String → String
  | [] => ""
  | [x] => x
  | x :: xs => x ++ sep ++ intercalateStr sep xs

/-- os.path.dirname for the relative slash-separated paths the script
builds: everything before the last slash, empty when there is none. -/
def dirname (p : String) : String :=
  intercalateStr ("/")
    (((splitCharAux (fun c => c == Char.ofNat 47) [] p.data).map String.mk).dropLast)

/-- os.path.join for one relative component, as used by the script. -/
def pathJoin (a b : String) : String := a ++ "/" ++ b

/-- os.makedirs with exist_ok=True on the modelled file system: creates the
directory when missing, and is a no-op when it already exists. -/
def makedirs (fs : FS) (d : String) : FS :=
  if fs.dirs.contains d then fs else { fs with dirs := d :: fs.dirs }

/-- generate_article_html: ensure the directory of file_path exists, then
write the filled template to file_path. -/
def generate_article_html (article_data : ArticleData) (file_path : String) (fs : FS) : FS :=
  FS.write (makedirs fs (dirname file_path)) file_path (articleContent article_data)

/-- Whether the first character list is a prefix of the second. -/
def isPrefixOfChars : List Char → List Char → Bool
  | [], _ => true
  | _ :: _, [] => false
  | a :: as, b :: bs => a == b && isPrefixOfChars as bs

/-- Whether the first character list occurs contiguously in the second. -/
def isInfixOfChars (pat : List Char) : List Char → Bool
  | [] => pat.isEmpty
  | b :: rest => isPrefixOfChars pat (b :: rest) || isInfixOfChars pat rest

/-- The Python substring test, pat in s, on the underlying characters. -/
def containsStr (s pat : String) : Bool := isInfixOfChars pat.data s.data

/-- The marker line fragment locating the existing news section. -/
def sectionMarker : String := "<section id=\"derniers-articles\""

/-- The marker locating the list opening tag. -/
def ulMarker : String := "<ul"

/-- The marker locating the end of the main element. -/
def mainCloseMarker : String := "</main>"

/-- The list item line linking the new article, as built by update_index. -/
def article_link (article_filename article_title : String) : String :=
  "    <li><a href=\"" ++ pathJoin NEWS_DIR article_filename ++ "\">" ++
    article_title ++ "</a></li>\n"

/-- The fresh section block built by update_index when no news section
exists yet. -/
def section_html (link : String) : List String :=
  ["  <section id=\"derniers-articles\">\n",
   "    <h2>Derniers articles</h2>\n",
   "    <ul>\n",
   link,
   "    </ul>\n",
   "  </section>\n"]

/-- Python list.insert: insert at an index, clamped to the length. -/
def insertAt (l : List α) (n : Nat) (a : α) : List α := l.take n ++ a :: l.drop n

/-- The pure core of update_index: the transformation applied to the list
of lines read from index.html. -/
def update_index_lines (article_filename article_title : String) (lines : List String) :
    List String :=
  let link := article_link article_filename article_title
  match lines.findIdx? (fun l => containsStr l sectionMarker) with
  | some start_idx =>
      let insert_idx :=
        match (lines.drop start_idx).findIdx? (fun l => containsStr l ulMarker) with
        | some k => start_idx + k + 1
        | none => start_idx + 1
      insertAt lines insert_idx link
  | none =>
      let insert_idx :=
        match lines.findIdx? (fun l => containsStr l mainCloseMarker) with
        | some j => j
        | none => lines.length
      lines.take insert_idx ++ section_html link ++ lines.drop insert_idx

/-- Python readlines on the characters of a file: split into lines, each
keeping its trailing newline; a last line without a newline is kept as is. -/
def breakLines (acc : List Char) : List Char → List (List Char)
  | [] => if acc.isEmpty then [] else [acc.reverse]
  | c :: rest =>
      if c = Char.ofNat 10 then ((c :: acc).reverse) :: breakLines [] rest
      else breakLines (c :: acc) rest

def splitLines (s : String) : List String := (breakLines [] s.data).map String.mk

/-- Python writelines: concatenate the lines back into file content. -/
def joinLines (ls : List String) : String := String.join ls

/-- update_index: return unchanged when index.html does not exist,
otherwise rewrite it with the new link inserted by update_index_lines. -/
def update_index (article_filename article_title : String) (fs : FS) : FS :=
  match fs.read INDEX_FILE with
  | none => fs
  | some content =>
      FS.write fs INDEX_FILE
        (joinLines (update_index_lines article_filename article_title (splitLines content)))

/-- Python str.lower, characterwise. -/
def lowerStr (s : String) : String := String.mk (s.data.map Char.toLower)

/-- Python str.split with no argument: split on whitespace, dropping empty
parts, so runs of whitespace and leading or trailing whitespace vanish. -/
def pySplit (s : String) : List String :=
  (((splitCharAux Char.isWhitespace [] s.data).map String.mk).filter (fun t => !(t == "")))

/-- The safe file name stem built in main: lowercase the title, join its
whitespace-separated words with hyphens, and keep at most 50 characters. -/
def safe_title (t : String) : String :=
  String.mk ((intercalateStr ("-") (pySplit (lowerStr t))).data.take 50)

/-- One string occurring contiguously and verbatim inside another. -/
def IsSubstrOf (s t : String) : Prop := ∃ p q, t = p ++ s ++ q

/-- main, with the parsed feed, the current UTC timestamp and the ISO date
of today passed as parameters in place of the network call and the clock;
returns the final file system together with the line printed. -/
def main (feed : Feed) (now today : String) (fs : FS) : FS × String :=
  match fetch_latest_entry feed now with
  | none => (fs, "Aucun article n\x27a été trouvé dans le flux RSS.")
  | some article =>
      let filename := today ++ "-" ++ safe_title article.title ++ ".html"
      let article_path := pathJoin NEWS_DIR filename
      let fs1 := generate_article_html article article_path fs
      let fs2 := update_index filename article.title fs1
      (fs2, "Article ajouté : " ++ filename)

theorem string_data_append (a b : String) : (a ++ b).data = a.data ++ b.data := by
  cases a; cases b; rfl

theorem read_write_self (fs : FS) (p c : String) : (fs.write p c).read p = some c := by
  unfold FS.read FS.write
  simp [List.find?]

theorem read_write_other (fs : FS) (q c p : String) (h : p ≠ q) :
    (fs.write q c).read p = fs.read p := by
  unfold FS.read FS.write
  have hq : (q == p) = false := by
    simp only [beq_eq_false_iff_ne]
    exact fun hh => h hh.symm
  simp [List.find?, hq]

theorem update_index_read_other (f t p : String) (fs : FS) (h : p ≠ INDEX_FILE) :
    (update_index f t fs).read p = fs.read p := by
  unfold update_index
  cases hr : fs.read INDEX_FILE with
  | none => rfl
  | some content => exact read_write_other fs INDEX_FILE _ p h

theorem pathJoin_news_ne_index (g : String) : pathJoin NEWS_DIR g ≠ INDEX_FILE := by
  intro h
  have h1 : ("news/" : String) ++ g = INDEX_FILE := by
    rw [← h]
    show "news/" ++ g = "news" ++ "/" ++ g
    have e : ("news" : String) ++ "/" = "news/" := by decide
    rw [e]
  have h2 : (("news/" : String) ++ g).data = INDEX_FILE.data :=
    congrArg String.data h1
  rw [string_data_append] at h2
  have h3 : (['n', 'e', 'w', 's', '/'] : List Char) ++ g.data =
      ['i', 'n', 'd', 'e', 'x', '.', 'h', 't', 'm', 'l'] := h2
  simp at h3

theorem sublist_take_middle_drop (l S : List α) (n : Nat) :
    l.Sublist (l.take n ++ S ++ l.drop n) := by
  conv_lhs => rw [← List.take_append_drop n l]
  rw [List.append_assoc]
  exact (List.Sublist.refl _).append (List.sublist_append_right S _)

theorem str_append_assoc (a b c : String) : a ++ b ++ c = a ++ (b ++ c) := by
  obtain ⟨la⟩ := a
  obtain ⟨lb⟩ := b
  obtain ⟨lc⟩ := c
  exact congrArg String.mk (List.append_assoc la lb lc)

theorem sublist_take_middle_drop_r (l S : List α) (n : Nat) :
    l.Sublist (l.take n ++ (S ++ l.drop n)) := by
  rw [← List.append_assoc]
  conv_lhs => rw [← List.take_append_drop n l]
  rw [List.append_assoc]
  exact (List.Sublist.refl _).append (List.sublist_append_right S _)

theorem update_index_lines_sublist (f t : String) (lines : List String) :
    lines.Sublist (update_index_lines f t lines) := by
  unfold update_index_lines
  cases lines.findIdx? (fun l => containsStr l sectionMarker) with
  | none => exact sublist_take_middle_drop _ _ _
  | some i => exact sublist_take_middle_drop_r lines [article_link f t] _

/-- C1: when the RSS feed yields no entries, fetch_latest_entry returns
none and main only prints a message: the file system comes back unchanged,
so no article file is written and the index file is untouched. -/
theorem c1_empty_feed_noop (feed : Feed) (now today : String) (fs : FS)
    (h : feed.entries = []) :
    fetch_latest_entry feed now = none ∧
    main feed now today fs = (fs, "Aucun article n\x27a été trouvé dans le flux RSS.") := by
  cases feed with
  | mk es =>
      cases h
      exact ⟨rfl, rfl⟩

/-- Witness for C1 at a concrete empty feed and empty file system. -/
theorem c1_witness :
    fetch_latest_entry ⟨[]⟩ ("2025-10-12T00:00:00") = none ∧
    main ⟨[]⟩ ("2025-10-12T00:00:00") ("2025-10-12") ⟨[], []⟩ =
      (⟨[], []⟩, "Aucun article n\x27a été trouvé dans le flux RSS.") :=
  c1_empty_feed_noop ⟨[]⟩ ("2025-10-12T00:00:00") ("2025-10-12") ⟨[], []⟩ rfl

/-- C2: for a feed with at least one entry, fetch_latest_entry builds its
dictionary from the first entry: title and description are the unescaped
entry fields, the link defaults to the empty string and the published field
defaults to the current UTC timestamp when the entry lacks them. -/
theorem c2_first_entry_fields (feed : Feed) (now : String) (e : Entry)
    (rest : List Entry) (h : feed.entries = e :: rest) :
    fetch_latest_entry feed now =
      some { title := htmlUnescape (e.title.getD ("Article sans titre")),
             link := e.link.getD (""),
             description := htmlUnescape (e.description.getD ("")),
             published := e.published.getD now } := by
  cases feed with
  | mk es =>
      cases h
      rfl

/-- Witness for C2: an entry lacking link and published gets the empty link
and the passed timestamp. -/
theorem c2_witness :
    fetch_latest_entry ⟨[⟨some ("Guerre &amp; Paix"), none, some ("Résumé"), none⟩]⟩
        ("2025-10-12T00:00:00") =
      some ⟨"Guerre & Paix", "", "Résumé", "2025-10-12T00:00:00"⟩ := by
  have h := c2_first_entry_fields
      ⟨[⟨some ("Guerre &amp; Paix"), none, some ("Résumé"), none⟩]⟩
      ("2025-10-12T00:00:00") ⟨some ("Guerre &amp; Paix"), none, some ("Résumé"), none⟩ [] rfl
  rw [h]
  decide

/-- C3 counterexample: an entry whose title field is present but empty
yields an empty returned title rather than the default, so the returned
title is not always non-empty. -/
theorem c3_counterexample :
    ∃ a : ArticleData,
      fetch_latest_entry ⟨[⟨some (""), none, none, none⟩]⟩ ("2025-10-12T00:00:00") = some a ∧
      a.title = "" :=
  ⟨⟨"", "", "", "2025-10-12T00:00:00"⟩, by decide, rfl⟩

/-- C3 amended: the fallback applies exactly when the entry has no title
field: then the returned title is the default, which is non-empty; a
present but empty title is returned empty. -/
theorem c3_absent_title_default (e : Entry) (rest : List Entry) (now : String)
    (h : e.title = none) :
    ∃ a, fetch_latest_entry ⟨e :: rest⟩ now = some a ∧
      a.title = "Article sans titre" ∧ a.title ≠ "" := by
  cases e with
  | mk t l d p =>
      cases h
      refine ⟨_, rfl, ?_, ?_⟩
      · show htmlUnescape (Option.getD none ("Article sans titre")) = "Article sans titre"
        decide
      · show htmlUnescape (Option.getD none ("Article sans titre")) ≠ ""
        decide

/-- Witness for the amended C3 at a concrete entry with no title field. -/
theorem c3_amended_witness :
    ∃ a, fetch_latest_entry ⟨[⟨none, none, none, none⟩]⟩ ("2025-10-12T00:00:00") = some a ∧
      a.title = "Article sans titre" ∧ a.title ≠ "" :=
  c3_absent_title_default ⟨none, none, none, none⟩ [] ("2025-10-12T00:00:00") rfl

/-- C7: when index.html does not exist, update_index returns the file
system unchanged: the index is not created and no file is modified. -/
theorem c7_missing_index_noop (f t : String) (fs : FS)
    (h : fs.pathExists INDEX_FILE = false) :
    update_index f t fs = fs := by
  have hr : fs.read INDEX_FILE = none := by
    unfold FS.pathExists at h
    cases hx : fs.read INDEX_FILE with
    | none => rfl
    | some c => rw [hx] at h; simp at h
  unfold update_index
  rw [hr]

/-- Witness for C7 at a concrete file system with no index.html. -/
theorem c7_witness : update_index ("f.html") ("T") ⟨[], []⟩ = ⟨[], []⟩ :=
  c7_missing_index_noop ("f.html") ("T") ⟨[], []⟩ rfl

/-- C4: when index.html has a line containing the derniers-articles section
marker, the new list item line is inserted immediately after the first line
at or after it that contains an ul opening tag, so it comes before every
previously listed article link. -/
theorem c4_prepend_after_ul (f t : String) (lines : List String) (i k : Nat)
    (hi : lines.findIdx? (fun l => containsStr l sectionMarker) = some i)
    (hk : (lines.drop i).findIdx? (fun l => containsStr l ulMarker) = some k) :
    update_index_lines f t lines =
      lines.take (i + k + 1) ++ article_link f t :: lines.drop (i + k + 1) := by
  unfold update_index_lines
  rw [hi]
  dsimp only
  rw [hk]
  rfl

/-- Witness for C4: the new list item lands right after the ul line, before
the previously listed item. -/
theorem c4_witness :
    update_index_lines ("2025-10-12-a.html") ("A")
        ["<body>\n", "  <section id=\"derniers-articles\">\n", "    <ul>\n",
         "    <li>old</li>\n", "</body>\n"] =
      ["<body>\n", "  <section id=\"derniers-articles\">\n", "    <ul>\n",
       article_link ("2025-10-12-a.html") ("A"),
       "    <li>old</li>\n", "</body>\n"] := by
  have h := c4_prepend_after_ul ("2025-10-12-a.html") ("A")
      ["<body>\n", "  <section id=\"derniers-articles\">\n", "    <ul>\n",
       "    <li>old</li>\n", "</body>\n"] 1 1 (by decide) (by decide)
  rw [h]
  rfl

/-- C9: when index.html has no derniers-articles line, a full new section
block is inserted immediately before the first line containing the main
closing tag, or appended at the end of the lines when no such line exists. -/
theorem c9_new_section (f t : String) (lines : List String)
    (hsec : lines.findIdx? (fun l => containsStr l sectionMarker) = none) :
    (∀ j, lines.findIdx? (fun l => containsStr l mainCloseMarker) = some j →
        update_index_lines f t lines =
          lines.take j ++ section_html (article_link f t) ++ lines.drop j) ∧
    (lines.findIdx? (fun l => containsStr l mainCloseMarker) = none →
        update_index_lines f t lines = lines ++ section_html (article_link f t)) := by
  constructor
  · intro j hj
    unfold update_index_lines
    rw [hsec, hj]
  · intro hm
    unfold update_index_lines
    rw [hsec, hm]
    simp

/-- Witness for C9: the fresh section block lands just before the main
closing line. -/
theorem c9_witness :
    update_index_lines ("2025-10-12-a.html") ("A")
        ["<main>\n", "  <p>x</p>\n", "</main>\n", "</html>\n"] =
      ["<main>\n", "  <p>x</p>\n"] ++
        section_html (article_link ("2025-10-12-a.html") ("A")) ++
        ["</main>\n", "</html>\n"] := by
  have h := (c9_new_section ("2025-10-12-a.html") ("A")
      ["<main>\n", "  <p>x</p>\n", "</main>\n", "</html>\n"] (by decide)).1 2 (by decide)
  rw [h]
  rfl

/-- C8 counterexample: when the single line of index.html has no trailing
newline, writelines glues the appended section onto it, so that old line is
no longer present as a line of the updated file. -/
theorem c8_counterexample :
    ∃ c, (update_index ("f.html") ("T") ⟨[], [(INDEX_FILE, "<html>")]⟩).read INDEX_FILE
          = some c ∧
      "<html>" ∈ splitLines ("<html>") ∧ "<html>" ∉ splitLines c :=
  ⟨joinLines (update_index_lines ("f.html") ("T") (splitLines ("<html>"))),
    by decide, by decide, by decide⟩

/-- C8 amended: update_index only inserts into the list of lines read by
readlines: that list is a subsequence of the list written back, and the file
is rewritten as exactly the concatenation of the new list. A final line
lacking a trailing newline is merged by the concatenation with the first
inserted line, so preservation is of the readlines list, not always of the
textual lines of the file. -/
theorem c8_lines_sublist (f t content : String) (fs : FS)
    (h : fs.read INDEX_FILE = some content) :
    (update_index f t fs).read INDEX_FILE =
      some (joinLines (update_index_lines f t (splitLines content))) ∧
    (splitLines content).Sublist (update_index_lines f t (splitLines content)) := by
  constructor
  · unfold update_index
    rw [h]
    exact read_write_self ..
  · exact update_index_lines_sublist f t (splitLines content)

/-- Witness for the amended C8 at a one-line index file. -/
theorem c8_witness :
    (update_index ("g.html") ("U") ⟨[], [(INDEX_FILE, "<p>a</p>\n")]⟩).read INDEX_FILE =
      some (joinLines (update_index_lines ("g.html") ("U") (splitLines ("<p>a</p>\n")))) ∧
    (splitLines ("<p>a</p>\n")).Sublist
      (update_index_lines ("g.html") ("U") (splitLines ("<p>a</p>\n"))) :=
  c8_lines_sublist ("g.html") ("U") ("<p>a</p>\n")
    ⟨[], [(INDEX_FILE, "<p>a</p>\n")]⟩ (by decide)

/-- C5 counterexample: on a file system with no news directory at all,
generate_article_html does not fail: it silently creates the directory via
makedirs with exist_ok and writes the article file. -/
theorem c5_counterexample :
    ((⟨[], []⟩ : FS).dirs.contains ("news") = false) ∧
    ((generate_article_html ⟨"T", "L", "D", "P"⟩ ("news/2025-10-12-t.html")
        ⟨[], []⟩).dirs.contains ("news") = true) ∧
    ((generate_article_html ⟨"T", "L", "D", "P"⟩ ("news/2025-10-12-t.html")
        ⟨[], []⟩).read ("news/2025-10-12-t.html") =
      some (articleContent ⟨"T", "L", "D", "P"⟩)) := by
  refine ⟨rfl, by decide, ?_⟩
  exact read_write_self ..

/-- C5 amended: a missing directory is silently repaired, not fatal: after
generate_article_html the directory of the file path exists and the file
holds the filled template, whether or not the directory existed before. -/
theorem c5_makedirs_repairs (a : ArticleData) (p : String) (fs : FS) :
    ((generate_article_html a p fs).dirs.contains (dirname p) = true) ∧
    (generate_article_html a p fs).read p = some (articleContent a) := by
  constructor
  · show (makedirs fs (dirname p)).dirs.contains (dirname p) = true
    unfold makedirs
    by_cases h : fs.dirs.contains (dirname p) = true
    · rw [if_pos h]
      exact h
    · rw [if_neg h]
      show List.contains (dirname p :: fs.dirs) (dirname p) = true
      simp
  · exact read_write_self ..

/-- C10: the content written by generate_article_html contains the title,
published, description and link strings verbatim as substrings: nothing is
escaped when the template is filled. -/
theorem c10_fields_verbatim (a : ArticleData) (file_path : String) (fs : FS) :
    ∃ c, (generate_article_html a file_path fs).read file_path = some c ∧
      IsSubstrOf a.title c ∧ IsSubstrOf a.published c ∧
      IsSubstrOf a.description c ∧ IsSubstrOf a.link c := by
  refine ⟨articleContent a, read_write_self .., ?_, ?_, ?_, ?_⟩
  · exact ⟨tpl1,
      tpl2 ++ a.title ++ tpl3 ++ a.published ++ tpl4 ++ a.description ++ tpl5 ++ a.link ++ tpl6,
      by simp only [articleContent, str_append_assoc]⟩
  · exact ⟨tpl1 ++ a.title ++ tpl2 ++ a.title ++ tpl3,
      tpl4 ++ a.description ++ tpl5 ++ a.link ++ tpl6,
      by simp only [articleContent, str_append_assoc]⟩
  · exact ⟨tpl1 ++ a.title ++ tpl2 ++ a.title ++ tpl3 ++ a.published ++ tpl4,
      tpl5 ++ a.link ++ tpl6,
      by simp only [articleContent, str_append_assoc]⟩
  · exact ⟨tpl1 ++ a.title ++ tpl2 ++ a.title ++ tpl3 ++ a.published ++ tpl4 ++ a.description ++ tpl5,
      tpl6,
      by simp only [articleContent, str_append_assoc]⟩

theorem read_after_pipeline (a : ArticleData) (fname : String) (fs : FS) :
    (update_index fname a.title
        (generate_article_html a (pathJoin NEWS_DIR fname) fs)).read
      (pathJoin NEWS_DIR fname) = some (articleContent a) := by
  rw [update_index_read_other fname a.title _ _ (pathJoin_news_ne_index fname)]
  exact read_write_self ..

/-- C6: for a non-empty feed the article page is written into the news
directory, under the name made of the ISO date of today, a hyphen and the
safe title with the html extension; the file holds the filled template and
the safe title never exceeds 50 characters. -/
theorem c6_dated_file (feed : Feed) (now today : String) (fs : FS) (e : Entry)
    (rest : List Entry) (h : feed.entries = e :: rest) :
    ∃ a, fetch_latest_entry feed now = some a ∧
      (main feed now today fs).1.read
          (pathJoin NEWS_DIR (today ++ "-" ++ safe_title a.title ++ ".html")) =
        some (articleContent a) ∧
      (safe_title a.title).length ≤ 50 := by
  cases feed with
  | mk es =>
      cases h
      refine ⟨_, rfl, ?_, ?_⟩
      · exact read_after_pipeline _ _ fs
      · show (List.take 50 (intercalateStr ("-") (pySplit (lowerStr _))).data).length ≤ 50
        exact List.length_take_le ..

/-- Witness for C6 at a concrete one-entry feed and empty file system. -/
theorem c6_witness :
    ∃ a, fetch_latest_entry
          ⟨[⟨some ("Titre Un"), some ("http://x/y"), some ("Desc"), some ("2025-10-11")⟩]⟩
          ("2025-10-12T00:00:00") = some a ∧
      (main ⟨[⟨some ("Titre Un"), some ("http://x/y"), some ("Desc"), some ("2025-10-11")⟩]⟩
            ("2025-10-12T00:00:00") ("2025-10-12") ⟨[], []⟩).1.read
          (pathJoin NEWS_DIR (("2025-10-12") ++ "-" ++ safe_title a.title ++ ".html")) =
        some (articleContent a) ∧
      (safe_title a.title).length ≤ 50 :=
  c6_dated_file
    ⟨[⟨some ("Titre Un"), some ("http://x/y"), some ("Desc"), some ("2025-10-11")⟩]⟩
    ("2025-10-12T00:00:00") ("2025-10-12") ⟨[], []⟩
    ⟨some ("Titre Un"), some ("http://x/y"), some ("Desc"), some ("2025-10-11")⟩ [] rfl

end UpdateArticles
